import Mathlib

/-!
Shallow embedding of the frame-resource / constant-buffer core of
`Solution/Project/week3-1-BoxApp.cpp` (class `ShapesApp`), together with
proofs of the specification's claims about it.

Machine integers of the C++ source (`int`, `UINT`, `UINT64`) are modelled by
`Nat`/`Int`; none of the embedded quantities ever approaches an overflow
boundary in the source (frame indices, descriptor offsets, dirty counters,
fence values), so no explicit wrap-around is modelled.  Floating-point scalars
are modelled by `ℚ`: the properties proved about them (clamping bounds) are
order-theoretic and hold exactly in IEEE floats as well.
-/

/-- Line 27 of the source: the number of buffered frame resources. -/
def gNumFrameResources : Nat := 3

/-- A 4x4 matrix of scalars, the payload of the per-object constant buffer. -/
def Mat4 : Type := Fin 4 → Fin 4 → ℚ

/-- DirectXMath transpose, used at line 446 of the source.  Transposition is
exact in floating point (a pure permutation of entries). -/
def XMMatrixTranspose (m : Mat4) : Mat4 := fun i j => m j i

/-- The per-object constant-buffer record (`FrameResource.h`); the only field
the source writes is the world matrix (line 446). -/
structure ObjectConstants where
  World : Mat4

/-- Lines 39-68 of the source: one drawable instance.  Only the fields the
claims are about are embedded; `NumFramesDirty` is an `int` initialised to
`gNumFrameResources` (line 52). -/
structure RenderItem where
  World : Mat4
  ObjCBIndex : Nat
  NumFramesDirty : Int := (gNumFrameResources : Int)
  IndexCount : Nat := 0
  StartIndexLocation : Nat := 0
  BaseVertexLocation : Nat := 0

/-- The mutable state of `ShapesApp` that the synchronization and
constant-buffer claims are about: the ring index (line 113), each frame
resource's recorded completion fence (`FrameResource::Fence`), each frame
resource's per-object upload buffer (`FrameResource::ObjectCB`, a map from
buffer element index to its last written contents), the render-item list
(line 128) and the CPU-side fence counter (`mCurrentFence` of `D3DApp`). -/
structure AppState where
  mCurrFrameResourceIndex : Nat
  frFence : Nat → Nat
  frObjectCB : Nat → Nat → Option ObjectConstants
  mAllRitems : List RenderItem
  mCurrentFence : Nat

/-- Line 241 of the source: cycle through the circular frame resource array. -/
def nextFrameIndex (s : AppState) : Nat :=
  (s.mCurrFrameResourceIndex + 1) % gNumFrameResources

/-- Lines 247-256 of the source: given the chosen slot's recorded fence and the
value `mFence->GetCompletedValue()` returned at entry, the completed value in
effect once the guard block finishes.  When the guard fires, the code waits on
`SetEventOnCompletion(fence)` / `WaitForSingleObject(INFINITE)`, which returns
exactly when the GPU has signaled at least `fence`; the wait is modelled by
the least value that satisfies the wakeup condition. -/
def waitForFence (fence observed : Nat) : Nat :=
  if fence ≠ 0 ∧ observed < fence then fence else observed

/-- Lines 434-454 of the source, the loop body of `UpdateObjectCBs`: walk the
render-item list; for each item with a positive dirty counter, copy the
transposed world matrix into the current frame resource's object buffer at
`ObjCBIndex` (`currObjectCB->CopyData`) and decrement the counter.  Returns
the updated buffer and the updated item list. -/
def updateObjectCBsAux :
    (Nat → Option ObjectConstants) → List RenderItem →
      (Nat → Option ObjectConstants) × List RenderItem
  | objCB, [] => (objCB, [])
  | objCB, e :: rest =>
    if e.NumFramesDirty > 0 then
      let objConstants : ObjectConstants := ⟨XMMatrixTranspose e.World⟩
      let objCB1 := fun i => if i = e.ObjCBIndex then some objConstants else objCB i
      let e1 := { e with NumFramesDirty := e.NumFramesDirty - 1 }
      let out := updateObjectCBsAux objCB1 rest
      (out.1, e1 :: out.2)
    else
      let out := updateObjectCBsAux objCB rest
      (out.1, e :: out.2)

/-- `ShapesApp::UpdateObjectCBs` (lines 434-454): the loop above applied to the
current frame resource's object buffer; buffers of the other slots are not
touched. -/
def UpdateObjectCBs (s : AppState) : AppState :=
  let out := updateObjectCBsAux (s.frObjectCB s.mCurrFrameResourceIndex) s.mAllRitems
  { s with
    frObjectCB := fun slot =>
      if slot = s.mCurrFrameResourceIndex then out.1 else s.frObjectCB slot,
    mAllRitems := out.2 }

/-- `ShapesApp::Update` (lines 235-264), restricted to the state the claims
are about: advance the ring index (line 241), wait on the chosen slot's
recorded fence if the GPU has not signaled it yet (lines 247-256), then write
the constant buffers (line 261).  `observed` is the value
`mFence->GetCompletedValue()` returns this tick; the second component of the
result is the completed fence value in effect when the buffer writes begin. -/
def Update (s : AppState) (observed : Nat) : AppState × Nat :=
  let idx := nextFrameIndex s
  let completed := waitForFence (s.frFence idx) observed
  let s1 := { s with mCurrFrameResourceIndex := idx }
  (UpdateObjectCBs s1, completed)

/-- Lines 346-351 of `ShapesApp::Draw`: increment `mCurrentFence`, record the
new value as the current frame resource's completion fence, and signal it on
the command queue.  The second component is the value passed to
`mCommandQueue->Signal`. -/
def Draw (s : AppState) : AppState × Nat :=
  let newFence := s.mCurrentFence + 1
  ({ s with
      mCurrentFence := newFence,
      frFence := fun j =>
        if j = s.mCurrFrameResourceIndex then newFence else s.frFence j },
   newFence)

/-- One frame tick per element of `observations` (each element being that
tick's `GetCompletedValue` result): run `Update` then `Draw` as the `D3DApp`
message loop does, collecting the fence values signaled by successive `Draw`
calls. -/
def frameLoop : AppState → List Nat → List Nat
  | _, [] => []
  | s, o :: os =>
    let p := Draw (Update s o).1
    p.2 :: frameLoop p.1 os

/-- One frame-resource bundle as constructed by `FrameResource(device,
passCount, objectCount)`; `BuildFrameResources` (line 931) passes `1` and
`mAllRitems.size()`. -/
structure FrameResourceSpec where
  passCount : Nat
  objectCount : Nat

/-- `ShapesApp::BuildFrameResources` (lines 927-934): push one frame resource
per loop iteration, `gNumFrameResources` in total. -/
def BuildFrameResources (numRitems : Nat) : List FrameResourceSpec :=
  (List.range gNumFrameResources).map fun _ => ⟨1, numRitems⟩

/-- Line 488 of `BuildDescriptorHeaps`: one CBV per object per frame resource,
plus one per-pass CBV per frame resource. -/
def numDescriptors (objCount : Nat) : Nat := (objCount + 1) * gNumFrameResources

/-- Line 491 of `BuildDescriptorHeaps`: offset of the first pass CBV (the pass
CBVs are the last `gNumFrameResources` descriptors). -/
def mPassCbvOffset (objCount : Nat) : Nat := objCount * gNumFrameResources

/-- Line 520 of `BuildConstantBufferViews`: heap index at which the view for
object `i` of frame resource `frameIndex` is created. -/
def objCbvHeapIndex (objCount frameIndex i : Nat) : Nat :=
  frameIndex * objCount + i

/-- Line 541 of `BuildConstantBufferViews`: heap index at which the pass view
of frame resource `frameIndex` is created. -/
def passCbvHeapIndex (objCount frameIndex : Nat) : Nat :=
  mPassCbvOffset objCount + frameIndex

/-- Line 1233 of `DrawRenderItems`: heap index bound for a render item at draw
time. -/
def drawCbvIndex (objCount currFrameResourceIndex objCBIndex : Nat) : Nat :=
  currFrameResourceIndex * objCount + objCBIndex

/-- Line 317 of `Draw`: heap index of the pass view bound at draw time. -/
def drawPassCbvIndex (objCount currFrameResourceIndex : Nat) : Nat :=
  mPassCbvOffset objCount + currFrameResourceIndex

/-- `ShapesApp::BuildRenderItems` (lines 936-1215), reduced to the sequence of
`ObjCBIndex` values assigned to the items pushed onto `mAllRitems`, in push
order: `wallIndex` starts at 4 (line 946); the four walls take `wallIndex++`;
each of the four tower iterations pushes a cylinder with index `i` and a cone
with `wallIndex++`; then door, two wedges, four toruses, pyramid, diamond and
diamond1 each take `wallIndex++`; finally the grid takes `mAllRitems.size()`
(line 1200). -/
def buildRenderItemsObjCBIndices : List Nat := Id.run do
  let mut ritems : List Nat := []
  let mut wallIndex : Nat := 4
  for _ in [0:4] do
    ritems := ritems ++ [wallIndex]
    wallIndex := wallIndex + 1
  for i in [0:4] do
    ritems := ritems ++ [i]
    ritems := ritems ++ [wallIndex]
    wallIndex := wallIndex + 1
  ritems := ritems ++ [wallIndex]
  wallIndex := wallIndex + 1
  ritems := ritems ++ [wallIndex]
  wallIndex := wallIndex + 1
  ritems := ritems ++ [wallIndex]
  wallIndex := wallIndex + 1
  for _ in [0:2] do
    ritems := ritems ++ [wallIndex]
    wallIndex := wallIndex + 1
  for _ in [0:2] do
    ritems := ritems ++ [wallIndex]
    wallIndex := wallIndex + 1
  ritems := ritems ++ [wallIndex]
  wallIndex := wallIndex + 1
  ritems := ritems ++ [wallIndex]
  wallIndex := wallIndex + 1
  ritems := ritems ++ [wallIndex]
  wallIndex := wallIndex + 1
  ritems := ritems ++ [ritems.length]
  return ritems

/-! ### Geometry: `ShapesApp::BuildShapeGeometry` (lines 619-883)

The eleven meshes are produced by `GeometryGenerator` (`Common/`, outside
`src/`), so their vertex/index counts enter the embedding as parameters; the
offset arithmetic below is transcribed from the source verbatim. -/

/-- Vertex and index counts of one generated mesh
(`MeshData::Vertices.size()` / `MeshData::Indices32.size()`). -/
structure MeshData where
  numVertices : Nat
  numIndices : Nat

/-- The eleven meshes created at lines 628-659, by name. -/
structure SceneMeshes where
  box : MeshData
  cylinder : MeshData
  grid : MeshData
  rooftop : MeshData
  door : MeshData
  cone : MeshData
  wedge : MeshData
  torus : MeshData
  pyramid : MeshData
  diamond : MeshData
  diamond1 : MeshData

/-- Line 666. -/
def boxVertexOffset (_m : SceneMeshes) : Nat := 0
/-- Line 667. -/
def cylinderVertexOffset (m : SceneMeshes) : Nat := m.box.numVertices
/-- Line 668. -/
def gridVertexOffset (m : SceneMeshes) : Nat :=
  cylinderVertexOffset m + m.cylinder.numVertices
/-- Line 669. -/
def roofVertexOffset (m : SceneMeshes) : Nat :=
  gridVertexOffset m + m.grid.numVertices
/-- Line 670. -/
def doorVertexOffset (m : SceneMeshes) : Nat :=
  boxVertexOffset m + m.box.numVertices + m.cylinder.numVertices +
    m.grid.numVertices + m.rooftop.numVertices
/-- Line 671. -/
def coneVertexOffset (m : SceneMeshes) : Nat :=
  doorVertexOffset m + m.door.numVertices
/-- Line 672. -/
def wedgeVertexOffset (m : SceneMeshes) : Nat :=
  coneVertexOffset m + m.cone.numVertices
/-- Line 673. -/
def torusVertexOffset (m : SceneMeshes) : Nat :=
  wedgeVertexOffset m + m.wedge.numVertices
/-- Line 674. -/
def pyramidVertexOffset (m : SceneMeshes) : Nat :=
  torusVertexOffset m + m.torus.numVertices
/-- Line 675 of the source adds `diamond.Vertices.size()` (not the
pyramid's). -/
def diamondVertexOffset (m : SceneMeshes) : Nat :=
  pyramidVertexOffset m + m.diamond.numVertices
/-- Line 676 of the source adds `diamond1.Vertices.size()` (not the
diamond's). -/
def diamond1VertexOffset (m : SceneMeshes) : Nat :=
  diamondVertexOffset m + m.diamond1.numVertices

/-- Line 682. -/
def boxIndexOffset (_m : SceneMeshes) : Nat := 0
/-- Line 683. -/
def cylinderIndexOffset (m : SceneMeshes) : Nat := m.box.numIndices
/-- Line 684. -/
def gridIndexOffset (m : SceneMeshes) : Nat :=
  cylinderIndexOffset m + m.cylinder.numIndices
/-- Line 685 of the source adds `grid.Vertices.size()` (a vertex count) to an
index offset. -/
def roofIndexOffset (m : SceneMeshes) : Nat :=
  gridIndexOffset m + m.grid.numVertices
/-- Line 686. -/
def doorIndexOffset (m : SceneMeshes) : Nat :=
  boxIndexOffset m + m.box.numIndices + m.cylinder.numIndices +
    m.grid.numIndices + m.rooftop.numIndices
/-- Line 687. -/
def coneIndexOffset (m : SceneMeshes) : Nat :=
  doorIndexOffset m + m.door.numIndices
/-- Line 688. -/
def wedgeIndexOffset (m : SceneMeshes) : Nat :=
  coneIndexOffset m + m.cone.numIndices
/-- Line 689. -/
def torusIndexOffset (m : SceneMeshes) : Nat :=
  wedgeIndexOffset m + m.wedge.numIndices
/-- Line 690. -/
def pyramidIndexOffset (m : SceneMeshes) : Nat :=
  torusIndexOffset m + m.torus.numIndices
/-- Line 691 of the source adds `diamond.Indices32.size()` (not the
pyramid's). -/
def diamondIndexOffset (m : SceneMeshes) : Nat :=
  pyramidIndexOffset m + m.diamond.numIndices
/-- Line 692 of the source adds `diamond1.Indices32.size()` (not the
diamond's). -/
def diamond1IndexOffset (m : SceneMeshes) : Nat :=
  diamondIndexOffset m + m.diamond1.numIndices

/-- `SubmeshGeometry` (`Common/d3dUtil.h`): a named sub-range of the combined
buffers. -/
structure SubmeshGeometry where
  IndexCount : Nat
  StartIndexLocation : Nat
  BaseVertexLocation : Nat

/-- The named shapes of the single `MeshGeometry` `"shapeGeo"`. -/
inductive ShapeId
  | box | cylinder | grid | rooftop | door | cone | wedge | torus
  | pyramid | diamond | diamond1
  deriving DecidableEq

/-- Mesh counts of a named shape. -/
def meshOf (m : SceneMeshes) : ShapeId → MeshData
  | .box => m.box
  | .cylinder => m.cylinder
  | .grid => m.grid
  | .rooftop => m.rooftop
  | .door => m.door
  | .cone => m.cone
  | .wedge => m.wedge
  | .torus => m.torus
  | .pyramid => m.pyramid
  | .diamond => m.diamond
  | .diamond1 => m.diamond1

/-- Lines 697-752 and 870-880: the submesh stored in `geo->DrawArgs` for each
named shape.  Note line 714 of the source sets `roofSubmesh.StartIndexLocation
= roofVertexOffset` (a vertex offset). -/
def drawArgs (m : SceneMeshes) : ShapeId → SubmeshGeometry
  | .box => ⟨m.box.numIndices, boxIndexOffset m, boxVertexOffset m⟩
  | .cylinder => ⟨m.cylinder.numIndices, cylinderIndexOffset m, cylinderVertexOffset m⟩
  | .grid => ⟨m.grid.numIndices, gridIndexOffset m, gridVertexOffset m⟩
  | .rooftop => ⟨m.rooftop.numIndices, roofVertexOffset m, roofVertexOffset m⟩
  | .door => ⟨m.door.numIndices, doorIndexOffset m, doorVertexOffset m⟩
  | .cone => ⟨m.cone.numIndices, coneIndexOffset m, coneVertexOffset m⟩
  | .wedge => ⟨m.wedge.numIndices, wedgeIndexOffset m, wedgeVertexOffset m⟩
  | .torus => ⟨m.torus.numIndices, torusIndexOffset m, torusVertexOffset m⟩
  | .pyramid => ⟨m.pyramid.numIndices, pyramidIndexOffset m, pyramidVertexOffset m⟩
  | .diamond => ⟨m.diamond.numIndices, diamondIndexOffset m, diamondVertexOffset m⟩
  | .diamond1 => ⟨m.diamond1.numIndices, diamond1IndexOffset m, diamond1VertexOffset m⟩

/-- Lines 755-757: total vertex count of the combined vertex buffer (the
vertices of the eleven meshes are appended in the order box, cylinder, grid,
rooftop, door, cone, wedge, torus, pyramid, diamond, diamond1; lines
766-825). -/
def totalVertexCount (m : SceneMeshes) : Nat :=
  m.box.numVertices + m.cylinder.numVertices + m.grid.numVertices +
    m.rooftop.numVertices + m.door.numVertices + m.cone.numVertices +
    m.wedge.numVertices + m.torus.numVertices + m.pyramid.numVertices +
    m.diamond.numVertices + m.diamond1.numVertices

/-- Lines 827-838: total size of the combined index buffer (the indices are
inserted in the same order box, cylinder, grid, rooftop, door, cone, wedge,
torus, pyramid, diamond, diamond1). -/
def totalIndexCount (m : SceneMeshes) : Nat :=
  m.box.numIndices + m.cylinder.numIndices + m.grid.numIndices +
    m.rooftop.numIndices + m.door.numIndices + m.cone.numIndices +
    m.wedge.numIndices + m.torus.numIndices + m.pyramid.numIndices +
    m.diamond.numIndices + m.diamond1.numIndices

/-- Position in the combined index buffer at which shape `s`'s own indices
actually begin: the sum of the index counts of the meshes inserted before it
in the insertion order of lines 827-838. -/
def actualIndexStart (m : SceneMeshes) : ShapeId → Nat
  | .box => 0
  | .cylinder => m.box.numIndices
  | .grid => m.box.numIndices + m.cylinder.numIndices
  | .rooftop => m.box.numIndices + m.cylinder.numIndices + m.grid.numIndices
  | .door => m.box.numIndices + m.cylinder.numIndices + m.grid.numIndices +
      m.rooftop.numIndices
  | .cone => m.box.numIndices + m.cylinder.numIndices + m.grid.numIndices +
      m.rooftop.numIndices + m.door.numIndices
  | .wedge => m.box.numIndices + m.cylinder.numIndices + m.grid.numIndices +
      m.rooftop.numIndices + m.door.numIndices + m.cone.numIndices
  | .torus => m.box.numIndices + m.cylinder.numIndices + m.grid.numIndices +
      m.rooftop.numIndices + m.door.numIndices + m.cone.numIndices +
      m.wedge.numIndices
  | .pyramid => m.box.numIndices + m.cylinder.numIndices + m.grid.numIndices +
      m.rooftop.numIndices + m.door.numIndices + m.cone.numIndices +
      m.wedge.numIndices + m.torus.numIndices
  | .diamond => m.box.numIndices + m.cylinder.numIndices + m.grid.numIndices +
      m.rooftop.numIndices + m.door.numIndices + m.cone.numIndices +
      m.wedge.numIndices + m.torus.numIndices + m.pyramid.numIndices
  | .diamond1 => m.box.numIndices + m.cylinder.numIndices + m.grid.numIndices +
      m.rooftop.numIndices + m.door.numIndices + m.cone.numIndices +
      m.wedge.numIndices + m.torus.numIndices + m.pyramid.numIndices +
      m.diamond.numIndices

/-- Position in the combined vertex buffer at which shape `s`'s own vertices
actually begin, following the insertion order of lines 766-825. -/
def actualVertexStart (m : SceneMeshes) : ShapeId → Nat
  | .box => 0
  | .cylinder => m.box.numVertices
  | .grid => m.box.numVertices + m.cylinder.numVertices
  | .rooftop => m.box.numVertices + m.cylinder.numVertices + m.grid.numVertices
  | .door => m.box.numVertices + m.cylinder.numVertices + m.grid.numVertices +
      m.rooftop.numVertices
  | .cone => m.box.numVertices + m.cylinder.numVertices + m.grid.numVertices +
      m.rooftop.numVertices + m.door.numVertices
  | .wedge => m.box.numVertices + m.cylinder.numVertices + m.grid.numVertices +
      m.rooftop.numVertices + m.door.numVertices + m.cone.numVertices
  | .torus => m.box.numVertices + m.cylinder.numVertices + m.grid.numVertices +
      m.rooftop.numVertices + m.door.numVertices + m.cone.numVertices +
      m.wedge.numVertices
  | .pyramid => m.box.numVertices + m.cylinder.numVertices + m.grid.numVertices +
      m.rooftop.numVertices + m.door.numVertices + m.cone.numVertices +
      m.wedge.numVertices + m.torus.numVertices
  | .diamond => m.box.numVertices + m.cylinder.numVertices + m.grid.numVertices +
      m.rooftop.numVertices + m.door.numVertices + m.cone.numVertices +
      m.wedge.numVertices + m.torus.numVertices + m.pyramid.numVertices
  | .diamond1 => m.box.numVertices + m.cylinder.numVertices + m.grid.numVertices +
      m.rooftop.numVertices + m.door.numVertices + m.cone.numVertices +
      m.wedge.numVertices + m.torus.numVertices + m.pyramid.numVertices +
      m.diamond.numVertices

/-- The invariant claimed for each named submesh: its index range stays inside
the combined index buffer; its base vertex plus any referenced vertex (which,
for a well-formed mesh, is below that mesh's own vertex count) stays inside
the combined vertex buffer; and the range covers exactly its own shape's
indices in the combined buffer. -/
def submeshCorrect (m : SceneMeshes) (s : ShapeId) : Prop :=
  (drawArgs m s).StartIndexLocation + (drawArgs m s).IndexCount ≤ totalIndexCount m ∧
  (drawArgs m s).BaseVertexLocation + (meshOf m s).numVertices ≤ totalVertexCount m ∧
  (drawArgs m s).StartIndexLocation = actualIndexStart m s ∧
  (drawArgs m s).IndexCount = (meshOf m s).numIndices ∧
  (drawArgs m s).BaseVertexLocation = actualVertexStart m s

/-- Representative mesh sizes.  `box`, `door` (CreateBox with 3 subdivisions),
`cylinder` (20 slices, 20 stacks), `grid` (40x40) and `rooftop` (260x260)
follow the standard GeometryGenerator construction shipped with the book
samples; the custom shapes (cone, wedge, torus, pyramid, diamond, diamond1)
are given small plausible triangle-mesh sizes.  The mismatches proved below
depend only on gross features of these numbers (e.g. a 40x40 grid has far
more indices than vertices), not on their exact values. -/
def sampleMeshes : SceneMeshes where
  box := ⟨1152, 2304⟩
  cylinder := ⟨485, 2520⟩
  grid := ⟨1600, 9126⟩
  rooftop := ⟨67600, 402486⟩
  door := ⟨1152, 2304⟩
  cone := ⟨41, 120⟩
  wedge := ⟨24, 36⟩
  torus := ⟨561, 3072⟩
  pyramid := ⟨5, 18⟩
  diamond := ⟨6, 24⟩
  diamond1 := ⟨6, 24⟩

/-! ### Camera: `ShapesApp::OnMouseMove` (lines 369-399) -/

/-- The float constant `MathHelper::Pi` / `XM_PI` (3.1415926535f), modelled as
a rational literal. -/
def piConst : ℚ := 3.1415926535

/-- DirectXMath degree-to-radian conversion. -/
def XMConvertToRadians (deg : ℚ) : ℚ := deg * (piConst / 180)

/-- Modelled from the spec and usage: `MathHelper::Clamp`
(`Common/MathHelper.h`, outside `src/`), used at lines 382 and 394 to
"Restrict the angle mPhi" and "Restrict the radius" to the given bounds. -/
def clampValue (x low high : ℚ) : ℚ :=
  if x < low then low else if x > high then high else x

/-- The camera-related fields of `ShapesApp` (lines 155-159). -/
structure CameraState where
  mTheta : ℚ
  mPhi : ℚ
  mRadius : ℚ
  lastX : Int
  lastY : Int

/-- Initial camera state (lines 155-157): `mTheta = 1.5f*XM_PI`,
`mPhi = 0.2f*XM_PI`, `mRadius = 15.0f`. -/
def initCameraState : CameraState where
  mTheta := 1.5 * piConst
  mPhi := 0.2 * piConst
  mRadius := 15.0
  lastX := 0
  lastY := 0

/-- Win32 mouse-button flag for the left button. -/
def MK_LBUTTON : Nat := 1
/-- Win32 mouse-button flag for the right button. -/
def MK_RBUTTON : Nat := 2

/-- `ShapesApp::OnMouseMove` (lines 369-399): with the left button held,
orbit (add quarter-degree-per-pixel deltas, then clamp `mPhi` to
`[0.1, Pi - 0.1]`); with the right button held, zoom (add 0.005-per-pixel
deltas, then clamp `mRadius` to `[3.0, 15.0]`); in every case record the
mouse position. -/
def OnMouseMove (btnState : Nat) (x y : Int) (s : CameraState) : CameraState :=
  if btnState &&& MK_LBUTTON ≠ 0 then
    let dx := XMConvertToRadians (0.25 * ((x : ℚ) - (s.lastX : ℚ)))
    let dy := XMConvertToRadians (0.25 * ((y : ℚ) - (s.lastY : ℚ)))
    { s with
      mTheta := s.mTheta + dx
      mPhi := clampValue (s.mPhi + dy) 0.1 (piConst - 0.1)
      lastX := x, lastY := y }
  else if btnState &&& MK_RBUTTON ≠ 0 then
    let dx := 0.005 * ((x : ℚ) - (s.lastX : ℚ))
    let dy := 0.005 * ((y : ℚ) - (s.lastY : ℚ))
    { s with
      mRadius := clampValue (s.mRadius + dx - dy) 3.0 15.0
      lastX := x, lastY := y }
  else
    { s with lastX := x, lastY := y }

/-- The bounds claimed for the camera state: polar angle in
`[0.1, Pi - 0.1]`, orbit radius in `[3.0, 15.0]`. -/
def cameraInvariant (s : CameraState) : Prop :=
  0.1 ≤ s.mPhi ∧ s.mPhi ≤ piConst - 0.1 ∧ 3.0 ≤ s.mRadius ∧ s.mRadius ≤ 15.0

/-! ### Error handling: `ThrowIfFailed` and `WinMain` (lines 162-183) -/

/-- The Windows `FAILED` macro: an HRESULT is a failure iff it is negative. -/
def FAILED (hr : Int) : Bool := hr < 0

/-- Modelled from the spec: the diagnostic `DxException`
(`Common/d3dUtil.h`, outside `src/`) thrown on a failing native call, carrying
the failing return code. -/
structure DxException where
  ErrorCode : Int

/-- Modelled from the spec: `ThrowIfFailed` (`Common/d3dUtil.h`, outside
`src/`); per the spec, a failing return code "is converted into a thrown
diagnostic carrying the failing return code", and a succeeding call returns
normally. -/
def ThrowIfFailed (hr : Int) : Except DxException Unit :=
  if FAILED hr then .error ⟨hr⟩ else .ok ()

/-- One HRESULT-returning native call as the source issues it: either a call
whose return code is wrapped in `ThrowIfFailed` (lines 202, 214, 273-281,
329, 339, ...), or the command-queue `Signal` call of line 351, whose
HRESULT the source discards. -/
inductive NativeCall
  | checked (hr : Int)
  | signalDiscarded (hr : Int)
  deriving DecidableEq

/-- A run of the sample, abstracted to its sequence of HRESULT-returning
native calls in program order: a checked call's code is fed to
`ThrowIfFailed`, so a thrown exception propagates and the calls after the
first checked failure never execute (no retry); the `Signal` call of line
351 proceeds regardless of its return code. -/
def runNativeCalls : List NativeCall → Except DxException Unit
  | [] => .ok ()
  | .checked hr :: rest => do
    ThrowIfFailed hr
    runNativeCalls rest
  | .signalDiscarded _ :: rest => runNativeCalls rest

/-- Result of `WinMain`: the error code displayed in the "HR Failed"
MessageBox, if any, and the process exit code. -/
structure WinMainResult where
  displayedError : Option Int
  exitCode : Int

/-- `WinMain` (lines 162-183): run the app inside try/catch; a propagated
`DxException` is displayed via MessageBox and the sample terminates with exit
code 0; a normal run returns the app's exit code. -/
def WinMain (appRun : Except DxException Int) : WinMainResult :=
  match appRun with
  | .ok code => ⟨none, code⟩
  | .error e => ⟨some e.ErrorCode, 0⟩

/-! ### Supporting lemmas -/

/-- One call to `frameTick` is one frame of the message loop: `Update` then
`Draw`. -/
def frameTick (s : AppState) (observed : Nat) : AppState :=
  (Draw (Update s observed).1).1

/-- Per-item effect of the `UpdateObjectCBs` loop body on the item itself
(lines 441-452): decrement the dirty counter iff it is positive. -/
def stepItem (e : RenderItem) : RenderItem :=
  if e.NumFramesDirty > 0 then { e with NumFramesDirty := e.NumFramesDirty - 1 } else e

lemma stepItem_ObjCBIndex (e : RenderItem) : (stepItem e).ObjCBIndex = e.ObjCBIndex := by
  unfold stepItem; split <;> rfl

lemma stepItem_World (e : RenderItem) : (stepItem e).World = e.World := by
  unfold stepItem; split <;> rfl

lemma stepItem_of_pos (e : RenderItem) (h : 0 < e.NumFramesDirty) :
    stepItem e = { e with NumFramesDirty := e.NumFramesDirty - 1 } := by
  unfold stepItem; rw [if_pos h]

lemma updateObjectCBsAux_items (objCB : Nat → Option ObjectConstants)
    (l : List RenderItem) : (updateObjectCBsAux objCB l).2 = l.map stepItem := by
  induction l generalizing objCB with
  | nil => rfl
  | cons e rest ih =>
    by_cases h : e.NumFramesDirty > 0
    · simp only [updateObjectCBsAux, if_pos h, stepItem, ih, List.map_cons]
    · simp only [updateObjectCBsAux, if_neg h, stepItem, ih, List.map_cons]

lemma updateObjectCBsAux_cb_untouched (l : List RenderItem)
    (objCB : Nat → Option ObjectConstants) (idx : Nat)
    (h : ∀ e ∈ l, e.ObjCBIndex ≠ idx) :
    (updateObjectCBsAux objCB l).1 idx = objCB idx := by
  induction l generalizing objCB with
  | nil => rfl
  | cons e rest ih =>
    have he : e.ObjCBIndex ≠ idx := h e (by simp)
    have hrest : ∀ x ∈ rest, x.ObjCBIndex ≠ idx := fun x hx => h x (by simp [hx])
    by_cases hd : e.NumFramesDirty > 0
    · simp only [updateObjectCBsAux, if_pos hd]
      rw [ih _ hrest, if_neg (fun hh => he hh.symm)]
    · simp only [updateObjectCBsAux, if_neg hd]
      exact ih _ hrest

lemma updateObjectCBsAux_cb_write (l : List RenderItem)
    (objCB : Nat → Option ObjectConstants) (e : RenderItem)
    (hmem : e ∈ l) (hd : 0 < e.NumFramesDirty)
    (hnd : (l.map RenderItem.ObjCBIndex).Nodup) :
    (updateObjectCBsAux objCB l).1 e.ObjCBIndex
      = some ⟨XMMatrixTranspose e.World⟩ := by
  induction l generalizing objCB with
  | nil => cases hmem
  | cons a rest ih =>
    rw [List.map_cons, List.nodup_cons] at hnd
    rcases List.mem_cons.mp hmem with rfl | hmem2
    · have hrest : ∀ x ∈ rest, x.ObjCBIndex ≠ e.ObjCBIndex := by
        intro x hx hcontra
        exact hnd.1 (hcontra ▸ List.mem_map_of_mem RenderItem.ObjCBIndex hx)
      simp only [updateObjectCBsAux, if_pos hd]
      rw [updateObjectCBsAux_cb_untouched rest _ _ hrest, if_pos rfl]
    · by_cases ha : a.NumFramesDirty > 0
      · simp only [updateObjectCBsAux, if_pos ha]
        exact ih _ hmem2 hnd.2
      · simp only [updateObjectCBsAux, if_neg ha]
        exact ih _ hmem2 hnd.2

lemma UpdateObjectCBs_items (s : AppState) :
    (UpdateObjectCBs s).mAllRitems = s.mAllRitems.map stepItem := by
  unfold UpdateObjectCBs
  exact updateObjectCBsAux_items _ _

lemma UpdateObjectCBs_write (s : AppState) (e : RenderItem)
    (hnd : (s.mAllRitems.map RenderItem.ObjCBIndex).Nodup)
    (hmem : e ∈ s.mAllRitems) (hd : 0 < e.NumFramesDirty) :
    (UpdateObjectCBs s).frObjectCB s.mCurrFrameResourceIndex e.ObjCBIndex
      = some ⟨XMMatrixTranspose e.World⟩ := by
  unfold UpdateObjectCBs
  simp only [if_pos rfl]
  exact updateObjectCBsAux_cb_write _ _ _ hmem hd hnd

lemma UpdateObjectCBs_other_slot (s : AppState) (f : Nat)
    (hf : f ≠ s.mCurrFrameResourceIndex) :
    (UpdateObjectCBs s).frObjectCB f = s.frObjectCB f := by
  unfold UpdateObjectCBs
  simp only [if_neg hf]

lemma Update_items (s : AppState) (o : Nat) :
    (Update s o).1.mAllRitems = s.mAllRitems.map stepItem := by
  unfold Update
  exact UpdateObjectCBs_items _

lemma Update_curr (s : AppState) (o : Nat) :
    (Update s o).1.mCurrFrameResourceIndex = nextFrameIndex s := rfl

lemma Update_write (s : AppState) (o : Nat) (e : RenderItem)
    (hnd : (s.mAllRitems.map RenderItem.ObjCBIndex).Nodup)
    (hmem : e ∈ s.mAllRitems) (hd : 0 < e.NumFramesDirty) :
    (Update s o).1.frObjectCB (nextFrameIndex s) e.ObjCBIndex
      = some ⟨XMMatrixTranspose e.World⟩ := by
  unfold Update
  exact UpdateObjectCBs_write { s with mCurrFrameResourceIndex := nextFrameIndex s }
    e hnd hmem hd

lemma Update_other_slot (s : AppState) (o : Nat) (f : Nat)
    (hf : f ≠ nextFrameIndex s) :
    (Update s o).1.frObjectCB f = s.frObjectCB f := by
  unfold Update
  exact UpdateObjectCBs_other_slot { s with mCurrFrameResourceIndex := nextFrameIndex s } f hf

lemma map_stepItem_ObjCBIndex (l : List RenderItem) :
    ((l.map stepItem).map RenderItem.ObjCBIndex) = l.map RenderItem.ObjCBIndex := by
  rw [List.map_map]
  exact List.map_congr_left fun e _ => stepItem_ObjCBIndex e

lemma frameLoop_signals (os : List Nat) :
    ∀ s : AppState, frameLoop s os
      = (List.range os.length).map fun k => s.mCurrentFence + (k + 1) := by
  induction os with
  | nil => intro s; rfl
  | cons o os ih =>
    intro s
    have h1 : (Draw (Update s o).1).1.mCurrentFence = s.mCurrentFence + 1 := rfl
    have h2 : (Draw (Update s o).1).2 = s.mCurrentFence + 1 := rfl
    show (Draw (Update s o).1).2 :: frameLoop (Draw (Update s o).1).1 os = _
    rw [h2, ih, h1, List.length_cons, List.range_succ_eq_map, List.map_cons,
      List.map_map]
    refine congrArg (fun t => (s.mCurrentFence + 1) :: t) ?_
    refine List.map_congr_left fun k _ => ?_
    simp only [Function.comp_apply]
    omega

lemma clampValue_mem (x low high : ℚ) (h : low ≤ high) :
    low ≤ clampValue x low high ∧ clampValue x low high ≤ high := by
  unfold clampValue
  split_ifs with h1 h2 <;> constructor <;> linarith

/-! ### Claim theorems -/

/-- C1: on every frame tick, after `Update` advances the ring index, if the
chosen frame resource's recorded completion fence is nonzero, then the
completed fence value in effect when the constant-buffer writes of this tick
begin is at least that recorded fence — the CPU never begins writing into a
slot whose recorded fence exceeds what the GPU has signaled. -/
theorem c1_update_waits_for_fence (s : AppState) (observed : Nat)
    (hne : (Update s observed).1.frFence
      (Update s observed).1.mCurrFrameResourceIndex ≠ 0) :
    (Update s observed).1.frFence (Update s observed).1.mCurrFrameResourceIndex
      ≤ (Update s observed).2 := by
  have hfence : (Update s observed).1.frFence = s.frFence := rfl
  have hidx : (Update s observed).1.mCurrFrameResourceIndex = nextFrameIndex s := rfl
  have hcomp : (Update s observed).2
      = waitForFence (s.frFence (nextFrameIndex s)) observed := rfl
  rw [hfence, hidx] at hne ⊢
  rw [hcomp]
  unfold waitForFence
  split_ifs with h
  · exact le_refl _
  · rw [not_and_or, not_lt] at h
    rcases h with h | h
    · exact absurd (not_not.mp h) hne
    · exact h

/-- Witness for C1 at a concrete state: slot fences all 5, GPU has only
signaled 3, so the wait must raise the completed value to 5. -/
theorem c1_witness :
    (Update ⟨0, fun _ => 5, fun _ _ => none, [], 7⟩ 3).1.frFence
        (Update ⟨0, fun _ => 5, fun _ _ => none, [], 7⟩ 3).1.mCurrFrameResourceIndex
      ≤ (Update ⟨0, fun _ => 5, fun _ _ => none, [], 7⟩ 3).2 :=
  c1_update_waits_for_fence ⟨0, fun _ => 5, fun _ _ => none, [], 7⟩ 3 (by decide)

/-- C3: the descriptor-heap addressing is the pure linear formula
`offset = slot * objectCount + objectIndex` for per-object views, the
per-pass views occupy the block starting at `objectCount * 3` (slot `f` at
`objectCount * 3 + f`), and draw-time binding (`DrawRenderItems` line 1233,
`Draw` line 317) uses exactly the creation-time formulas
(`BuildConstantBufferViews` lines 520 and 541). -/
theorem c3_descriptor_addressing :
    (∀ objCount slot i, objCbvHeapIndex objCount slot i = slot * objCount + i) ∧
    (∀ objCount slot i, drawCbvIndex objCount slot i = objCbvHeapIndex objCount slot i) ∧
    (∀ objCount f, passCbvHeapIndex objCount f = objCount * 3 + f) ∧
    (∀ objCount slot, drawPassCbvIndex objCount slot = passCbvHeapIndex objCount slot) :=
  ⟨fun _ _ _ => rfl, fun _ _ _ => rfl, fun _ _ => rfl, fun _ _ => rfl⟩

/-- C7: every `Draw` increments the CPU fence counter by exactly one, records
the new value as the current frame resource's completion fence, signals
exactly that value on the queue, and over any run of the frame loop the
sequence of signaled fence values is strictly increasing. -/
theorem c7_fence_strictly_monotone :
    (∀ s : AppState,
      (Draw s).1.mCurrentFence = s.mCurrentFence + 1 ∧
      (Draw s).1.frFence s.mCurrFrameResourceIndex = s.mCurrentFence + 1 ∧
      (Draw s).2 = s.mCurrentFence + 1) ∧
    (∀ (s : AppState) (observations : List Nat),
      List.Chain' (· < ·) (frameLoop s observations)) := by
  constructor
  · intro s
    refine ⟨rfl, ?_, rfl⟩
    show (if s.mCurrFrameResourceIndex = s.mCurrFrameResourceIndex
        then s.mCurrentFence + 1 else s.frFence s.mCurrFrameResourceIndex)
      = s.mCurrentFence + 1
    rw [if_pos rfl]
  · intro s observations
    rw [frameLoop_signals]
    rw [List.chain'_iff_pairwise]
    rw [List.pairwise_map]
    exact (List.pairwise_lt_range observations.length).imp fun h => by omega

/-- C8: exactly `gNumFrameResources = 3` frame resources are built at startup,
every `Update` advances the ring index by exactly one modulo 3 (and `Draw`
leaves it unchanged), and over any 3 consecutive frame ticks the three
selected slot indices are pairwise distinct and exhaust the 3 slots. -/
theorem c8_ring_cycling :
    (∀ numRitems, (BuildFrameResources numRitems).length = gNumFrameResources) ∧
    (∀ (s : AppState) (o : Nat), (Update s o).1.mCurrFrameResourceIndex
      = (s.mCurrFrameResourceIndex + 1) % gNumFrameResources) ∧
    (∀ s : AppState, (Draw s).1.mCurrFrameResourceIndex = s.mCurrFrameResourceIndex) ∧
    (∀ (s : AppState) (o1 o2 o3 : Nat),
      (frameTick s o1).mCurrFrameResourceIndex
          ≠ (frameTick (frameTick s o1) o2).mCurrFrameResourceIndex ∧
      (frameTick s o1).mCurrFrameResourceIndex
          ≠ (frameTick (frameTick (frameTick s o1) o2) o3).mCurrFrameResourceIndex ∧
      (frameTick (frameTick s o1) o2).mCurrFrameResourceIndex
          ≠ (frameTick (frameTick (frameTick s o1) o2) o3).mCurrFrameResourceIndex ∧
      ∀ f < gNumFrameResources,
        f = (frameTick s o1).mCurrFrameResourceIndex ∨
        f = (frameTick (frameTick s o1) o2).mCurrFrameResourceIndex ∨
        f = (frameTick (frameTick (frameTick s o1) o2) o3).mCurrFrameResourceIndex) := by
  have htick : ∀ (s : AppState) (o : Nat), (frameTick s o).mCurrFrameResourceIndex
      = (s.mCurrFrameResourceIndex + 1) % gNumFrameResources := fun _ _ => rfl
  refine ⟨fun n => by simp [BuildFrameResources], fun _ _ => rfl, fun _ => rfl, ?_⟩
  intro s o1 o2 o3
  rw [htick, htick, htick, htick, htick, htick]
  unfold gNumFrameResources
  refine ⟨by omega, by omega, by omega, by omega⟩

/-- Witness for C8's universally quantified slot-coverage clause at a concrete
state and slot. -/
theorem c8_witness :
    (2 : Nat) = (frameTick ⟨0, fun _ => 0, fun _ _ => none, [], 0⟩ 0).mCurrFrameResourceIndex ∨
    (2 : Nat) = (frameTick (frameTick ⟨0, fun _ => 0, fun _ _ => none, [], 0⟩ 0) 0).mCurrFrameResourceIndex ∨
    (2 : Nat) = (frameTick (frameTick (frameTick ⟨0, fun _ => 0, fun _ _ => none, [], 0⟩ 0) 0) 0).mCurrFrameResourceIndex :=
  (c8_ring_cycling.2.2.2 ⟨0, fun _ => 0, fun _ _ => none, [], 0⟩ 0 0 0).2.2.2 2 (by decide)

/-- C10: the dirty counter is initialised to `gNumFrameResources = 3`
(default member initialiser, line 52); `UpdateObjectCBs` maps each item
through the decrement-iff-positive step, which never increases the counter,
keeps it nonnegative, and keeps it at most 3. -/
theorem c10_dirty_counter_bounds :
    (∀ (w : Mat4) (i : Nat),
      ({ World := w, ObjCBIndex := i } : RenderItem).NumFramesDirty = 3) ∧
    (∀ (objCB : Nat → Option ObjectConstants) (l : List RenderItem),
      (updateObjectCBsAux objCB l).2 = l.map stepItem) ∧
    (∀ e : RenderItem,
      (stepItem e).NumFramesDirty ≤ e.NumFramesDirty ∧
      (0 ≤ e.NumFramesDirty → 0 ≤ (stepItem e).NumFramesDirty) ∧
      (e.NumFramesDirty ≤ 3 → (stepItem e).NumFramesDirty ≤ 3)) := by
  refine ⟨fun _ _ => rfl, updateObjectCBsAux_items, fun e => ?_⟩
  unfold stepItem
  split_ifs with h
  · refine ⟨?_, fun _ => ?_, fun hle => ?_⟩
    · show e.NumFramesDirty - 1 ≤ e.NumFramesDirty
      omega
    · show (0 : Int) ≤ e.NumFramesDirty - 1
      omega
    · show e.NumFramesDirty - 1 ≤ 3
      omega
  · exact ⟨le_refl _, fun h0 => h0, fun hle => hle⟩

/-- Witness for C10's bound clauses at a concrete render item with dirty
counter 3. -/
theorem c10_witness :
    0 ≤ (stepItem { World := fun _ _ => 0, ObjCBIndex := 0 }).NumFramesDirty :=
  (c10_dirty_counter_bounds.2.2 { World := fun _ _ => 0, ObjCBIndex := 0 }).2.1 (by decide)

/-- C9: the camera bounds `mPhi ∈ [0.1, Pi - 0.1]` and `mRadius ∈ [3, 15]`
hold initially and are preserved by every `OnMouseMove` call, for every
button state and any mouse coordinates; since no other code writes these
fields, mouse input can never drive the camera to the poles or through the
origin. -/
theorem c9_camera_bounded :
    cameraInvariant initCameraState ∧
    ∀ (s : CameraState) (btnState : Nat) (x y : Int),
      cameraInvariant s → cameraInvariant (OnMouseMove btnState x y s) := by
  constructor
  · refine ⟨?_, ?_, ?_, ?_⟩ <;> norm_num [initCameraState, piConst]
  · intro s btnState x y hs
    obtain ⟨h1, h2, h3, h4⟩ := hs
    unfold OnMouseMove cameraInvariant
    split_ifs with hL hR
    · have hb : (0.1 : ℚ) ≤ piConst - 0.1 := by norm_num [piConst]
      obtain ⟨hc1, hc2⟩ := clampValue_mem
        (s.mPhi + XMConvertToRadians (0.25 * ((y : ℚ) - (s.lastY : ℚ)))) _ _ hb
      exact ⟨hc1, hc2, h3, h4⟩
    · have hb : (3.0 : ℚ) ≤ 15.0 := by norm_num
      obtain ⟨hc1, hc2⟩ := clampValue_mem
        (s.mRadius + 0.005 * ((x : ℚ) - (s.lastX : ℚ))
          - 0.005 * ((y : ℚ) - (s.lastY : ℚ))) _ _ hb
      exact ⟨h1, h2, hc1, hc2⟩
    · exact ⟨h1, h2, h3, h4⟩

/-- Witness for C9: the initial camera state satisfies the bounds, and one
concrete left-button drag keeps them. -/
theorem c9_witness : cameraInvariant (OnMouseMove 1 100 (-300) initCameraState) :=
  c9_camera_bounded.2 initCameraState 1 100 (-300) c9_camera_bounded.1

/-- A native call that does not abort the run: any line-351 signal call
(whatever its return code), or a checked call whose code succeeds. -/
def nonAborting : NativeCall → Prop
  | .checked hr => FAILED hr = false
  | .signalDiscarded _ => True

instance (c : NativeCall) : Decidable (nonAborting c) :=
  match c with
  | .checked hr => inferInstanceAs (Decidable (FAILED hr = false))
  | .signalDiscarded _ => inferInstanceAs (Decidable True)

/-- C6 counterexample: not every native graphics-API call whose failure is
observable is treated as fatal.  The command-queue `Signal` call at line 351
discards its HRESULT, so a run in which exactly that call fails (here with
code `-1`) completes normally: no diagnostic is thrown and the sample is not
terminated. -/
theorem c6_unchecked_signal_counterexample :
    ¬ (∀ (calls : List NativeCall) (hr : Int),
        NativeCall.signalDiscarded hr ∈ calls → FAILED hr = true →
          ∃ e : DxException, runNativeCalls calls = .error e) ∧
    runNativeCalls [.signalDiscarded (-1)] = .ok () ∧
    FAILED (-1) = true := by
  refine ⟨fun hall => ?_, rfl, by decide⟩
  obtain ⟨e, he⟩ := hall [.signalDiscarded (-1)] (-1)
    (List.mem_singleton.mpr rfl) (by decide)
  rw [show runNativeCalls [NativeCall.signalDiscarded (-1)]
      = Except.ok () from rfl] at he
  exact Except.noConfusion he

/-- C6 (amended): every native call whose return code the sample feeds to
`ThrowIfFailed` is treated as fatal — a failing code is converted into a
thrown diagnostic carrying exactly that code, a succeeding checked call
returns normally, a run aborts at its first failing checked call with no
retry and no recovery (the calls after the failure are never consulted), and
the top-level handler displays the carried code and terminates with exit
code 0.  The exception forced by the counterexample: the `Signal` call of
line 351 proceeds regardless of its return code. -/
theorem c6_checked_failures_fatal :
    (∀ hr : Int, FAILED hr = true → ThrowIfFailed hr = .error ⟨hr⟩) ∧
    (∀ hr : Int, FAILED hr = false → ThrowIfFailed hr = .ok ()) ∧
    (∀ (hr : Int) (rest : List NativeCall),
      runNativeCalls (.signalDiscarded hr :: rest) = runNativeCalls rest) ∧
    (∀ (pre post : List NativeCall) (bad : Int),
      (∀ c ∈ pre, nonAborting c) → FAILED bad = true →
        runNativeCalls (pre ++ .checked bad :: post) = .error ⟨bad⟩) ∧
    (∀ e : DxException, WinMain (.error e) = ⟨some e.ErrorCode, 0⟩) := by
  have hthrow : ∀ hr : Int, FAILED hr = true → ThrowIfFailed hr = .error ⟨hr⟩ := by
    intro hr h
    unfold ThrowIfFailed
    rw [h]
    rfl
  have hok : ∀ hr : Int, FAILED hr = false → ThrowIfFailed hr = .ok () := by
    intro hr h
    unfold ThrowIfFailed
    rw [h]
    rfl
  refine ⟨hthrow, hok, fun _ _ => rfl, ?_, fun _ => rfl⟩
  intro pre post bad hpre hbad
  induction pre with
  | nil =>
    show (do ThrowIfFailed bad; runNativeCalls post) = Except.error ⟨bad⟩
    rw [hthrow bad hbad]
    rfl
  | cons c rest ih =>
    cases c with
    | checked hr =>
      show (do ThrowIfFailed hr; runNativeCalls (rest ++ .checked bad :: post))
        = Except.error ⟨bad⟩
      have hhr : FAILED hr = false := hpre (.checked hr) (by simp)
      rw [hok hr hhr]
      exact ih fun x hx => hpre x (by simp [hx])
    | signalDiscarded hr =>
      show runNativeCalls (rest ++ .checked bad :: post) = Except.error ⟨bad⟩
      exact ih fun x hx => hpre x (by simp [hx])

/-- Witness for the amended C6: a run whose line-351 signal call fails with
`-7` (discarded) still proceeds to — and aborts at — the first failing
checked call `-1`; the trailing call is never consulted. -/
theorem c6_checked_witness :
    runNativeCalls [.checked 0, .signalDiscarded (-7), .checked (-1), .checked 2]
      = .error ⟨-1⟩ :=
  c6_checked_failures_fatal.2.2.2.1 [.checked 0, .signalDiscarded (-7)]
    [.checked 2] (-1) (by decide) (by decide)

set_option maxHeartbeats 2000000 in
/-- Evaluation of the assigned `ObjCBIndex` sequence of `BuildRenderItems`:
4 walls (`wallIndex` 4..7), then cylinder/cone pairs (0/8, 1/9, 2/10, 3/11),
door 12, wedges 13-14, toruses 15-18, pyramid 19, diamond 20, diamond1 21,
and the grid at the list length 22. -/
lemma buildRenderItemsObjCBIndices_eval :
    buildRenderItemsObjCBIndices =
      [4, 5, 6, 7, 0, 8, 1, 9, 2, 10, 3, 11, 12, 13, 14, 15, 16, 17,
       18, 19, 20, 21, 22] := by
  rfl

/-- C4: the 23 render items get pairwise distinct `ObjCBIndex` values, all in
`[0, 23)`; hence the descriptor offsets `slot * 23 + ObjCBIndex` are injective
over (slot, object) pairs, stay below the pass-view block at `23 * 3 = 69`,
and every offset (including the three per-pass offsets) is strictly below the
heap's descriptor count `(23 + 1) * 3 = 72`. -/
theorem c4_descriptor_offsets_injective :
    buildRenderItemsObjCBIndices.length = 23 ∧
    buildRenderItemsObjCBIndices.Nodup ∧
    (∀ o ∈ buildRenderItemsObjCBIndices, o < 23) ∧
    (∀ s1 < gNumFrameResources, ∀ s2 < gNumFrameResources,
      ∀ o1 ∈ buildRenderItemsObjCBIndices, ∀ o2 ∈ buildRenderItemsObjCBIndices,
        objCbvHeapIndex 23 s1 o1 = objCbvHeapIndex 23 s2 o2 →
          s1 = s2 ∧ o1 = o2) ∧
    (∀ slot < gNumFrameResources, ∀ o ∈ buildRenderItemsObjCBIndices,
      drawCbvIndex 23 slot o = objCbvHeapIndex 23 slot o ∧
      objCbvHeapIndex 23 slot o < mPassCbvOffset 23 ∧
      objCbvHeapIndex 23 slot o < numDescriptors 23) ∧
    (∀ f < gNumFrameResources, passCbvHeapIndex 23 f < numDescriptors 23) := by
  rw [buildRenderItemsObjCBIndices_eval]
  refine ⟨rfl, by decide, by decide, ?_, by decide, by decide⟩
  have hball : ∀ o ∈ ([4, 5, 6, 7, 0, 8, 1, 9, 2, 10, 3, 11, 12, 13, 14, 15,
      16, 17, 18, 19, 20, 21, 22] : List Nat), o < 23 := by decide
  intro s1 hs1 s2 hs2 o1 ho1 o2 ho2 heq
  have h1 : o1 < 23 := hball o1 ho1
  have h2 : o2 < 23 := hball o2 ho2
  unfold objCbvHeapIndex at heq
  unfold gNumFrameResources at hs1 hs2
  omega

/-- Witness for C4's bounded clauses at the last slot and the grid's object
index. -/
theorem c4_witness :
    objCbvHeapIndex 23 2 22 < mPassCbvOffset 23 ∧
    objCbvHeapIndex 23 2 22 < numDescriptors 23 :=
  ⟨((c4_descriptor_offsets_injective.2.2.2.2.1 2 (by decide) 22
      (by rw [buildRenderItemsObjCBIndices_eval]; decide)).2.1),
   ((c4_descriptor_offsets_injective.2.2.2.2.1 2 (by decide) 22
      (by rw [buildRenderItemsObjCBIndices_eval]; decide)).2.2)⟩

/-- C2: whenever a render item's dirty counter is positive, `UpdateObjectCBs`
writes its transposed world matrix into the current frame resource's object
buffer at `ObjCBIndex` and decrements exactly that item's counter by one; and
an item entering a frame with counter 3 has, three frame ticks later, counter
0 and its transposed world matrix stored in the object buffers of all three
frame resources.  The `Nodup` hypothesis states that the items' buffer
indices are pairwise distinct, which `BuildRenderItems` guarantees (claim
C4). -/
theorem c2_object_cb_propagation :
    (∀ (s : AppState) (e : RenderItem),
      (s.mAllRitems.map RenderItem.ObjCBIndex).Nodup →
      e ∈ s.mAllRitems → 0 < e.NumFramesDirty →
        (UpdateObjectCBs s).frObjectCB s.mCurrFrameResourceIndex e.ObjCBIndex
            = some ⟨XMMatrixTranspose e.World⟩ ∧
        { e with NumFramesDirty := e.NumFramesDirty - 1 }
            ∈ (UpdateObjectCBs s).mAllRitems) ∧
    (∀ (s : AppState) (o1 o2 o3 : Nat) (e : RenderItem),
      (s.mAllRitems.map RenderItem.ObjCBIndex).Nodup →
      e ∈ s.mAllRitems → e.NumFramesDirty = 3 →
        (∃ e3 ∈ (Update (Update (Update s o1).1 o2).1 o3).1.mAllRitems,
          e3.ObjCBIndex = e.ObjCBIndex ∧ e3.World = e.World ∧
            e3.NumFramesDirty = 0) ∧
        ∀ f < gNumFrameResources,
          (Update (Update (Update s o1).1 o2).1 o3).1.frObjectCB f e.ObjCBIndex
            = some ⟨XMMatrixTranspose e.World⟩) := by
  constructor
  · intro s e hnd hmem hd
    refine ⟨UpdateObjectCBs_write s e hnd hmem hd, ?_⟩
    rw [UpdateObjectCBs_items]
    rw [← stepItem_of_pos e hd]
    exact List.mem_map_of_mem stepItem hmem
  · intro s o1 o2 o3 e hnd hmem hd3
    set s1 := (Update s o1).1 with hs1
    set s2 := (Update s1 o2).1 with hs2
    set s3 := (Update s2 o3).1 with hs3
    set i1 := nextFrameIndex s with hi1
    set i2 := nextFrameIndex s1 with hi2
    set i3 := nextFrameIndex s2 with hi3
    -- items and currency bookkeeping across the three updates
    have hitems1 : s1.mAllRitems = s.mAllRitems.map stepItem := Update_items s o1
    have hitems2 : s2.mAllRitems = s1.mAllRitems.map stepItem := Update_items s1 o2
    have hitems3 : s3.mAllRitems = s2.mAllRitems.map stepItem := Update_items s2 o3
    have hnd1 : (s1.mAllRitems.map RenderItem.ObjCBIndex).Nodup := by
      rw [hitems1, map_stepItem_ObjCBIndex]; exact hnd
    have hnd2 : (s2.mAllRitems.map RenderItem.ObjCBIndex).Nodup := by
      rw [hitems2, map_stepItem_ObjCBIndex]; exact hnd1
    -- the tracked item after each update
    have hd : 0 < e.NumFramesDirty := by omega
    have he1mem : stepItem e ∈ s1.mAllRitems := by
      rw [hitems1]; exact List.mem_map_of_mem stepItem hmem
    have he1d : (stepItem e).NumFramesDirty = 2 := by
      rw [stepItem_of_pos e hd]
      show e.NumFramesDirty - 1 = 2
      omega
    have he1d' : 0 < (stepItem e).NumFramesDirty := by omega
    have he2mem : stepItem (stepItem e) ∈ s2.mAllRitems := by
      rw [hitems2]; exact List.mem_map_of_mem stepItem he1mem
    have he2d : (stepItem (stepItem e)).NumFramesDirty = 1 := by
      rw [stepItem_of_pos _ he1d']
      show (stepItem e).NumFramesDirty - 1 = 1
      omega
    have he2d' : 0 < (stepItem (stepItem e)).NumFramesDirty := by omega
    have he3mem : stepItem (stepItem (stepItem e)) ∈ s3.mAllRitems := by
      rw [hitems3]; exact List.mem_map_of_mem stepItem he2mem
    have he3d : (stepItem (stepItem (stepItem e))).NumFramesDirty = 0 := by
      rw [stepItem_of_pos _ he2d']
      show (stepItem (stepItem e)).NumFramesDirty - 1 = 0
      omega
    have hidx1 : (stepItem e).ObjCBIndex = e.ObjCBIndex := stepItem_ObjCBIndex e
    have hidx2 : (stepItem (stepItem e)).ObjCBIndex = e.ObjCBIndex := by
      rw [stepItem_ObjCBIndex, hidx1]
    have hidx3 : (stepItem (stepItem (stepItem e))).ObjCBIndex = e.ObjCBIndex := by
      rw [stepItem_ObjCBIndex, hidx2]
    have hw1 : (stepItem e).World = e.World := stepItem_World e
    have hw2 : (stepItem (stepItem e)).World = e.World := by
      rw [stepItem_World, hw1]
    have hw3 : (stepItem (stepItem (stepItem e))).World = e.World := by
      rw [stepItem_World, hw2]
    refine ⟨⟨stepItem (stepItem (stepItem e)), he3mem, hidx3, hw3, he3d⟩, ?_⟩
    -- the three written slots
    have hcurr1 : s1.mCurrFrameResourceIndex = i1 := rfl
    have hcurr2 : s2.mCurrFrameResourceIndex = i2 := rfl
    have hi2eq : i2 = (i1 + 1) % gNumFrameResources := by
      rw [hi2]; unfold nextFrameIndex; rw [hcurr1]
    have hi3eq : i3 = (i2 + 1) % gNumFrameResources := by
      rw [hi3]; unfold nextFrameIndex; rw [hcurr2]
    have hlt1 : i1 < 3 := by
      rw [hi1]; unfold nextFrameIndex gNumFrameResources; omega
    have hlt2 : i2 < 3 := by
      rw [hi2eq]; unfold gNumFrameResources; omega
    have hlt3 : i3 < 3 := by
      rw [hi3eq]; unfold gNumFrameResources; omega
    have hne12 : i1 ≠ i2 := by
      rw [hi2eq]; unfold gNumFrameResources; omega
    have hne13 : i1 ≠ i3 := by
      rw [hi3eq, hi2eq]; unfold gNumFrameResources; omega
    have hne23 : i2 ≠ i3 := by
      rw [hi3eq]; unfold gNumFrameResources; omega
    -- the writes performed by each update
    have hwrite1 : s1.frObjectCB i1 e.ObjCBIndex
        = some ⟨XMMatrixTranspose e.World⟩ := Update_write s o1 e hnd hmem hd
    have hwrite2 : s2.frObjectCB i2 e.ObjCBIndex
        = some ⟨XMMatrixTranspose e.World⟩ := by
      have := Update_write s1 o2 (stepItem e) hnd1 he1mem he1d'
      rw [hidx1, hw1] at this
      exact this
    have hwrite3 : s3.frObjectCB i3 e.ObjCBIndex
        = some ⟨XMMatrixTranspose e.World⟩ := by
      have := Update_write s2 o3 (stepItem (stepItem e)) hnd2 he2mem he2d'
      rw [hidx2, hw2] at this
      exact this
    -- earlier writes survive the later updates (they touch other slots)
    have hkeep1 : s3.frObjectCB i1 = s1.frObjectCB i1 := by
      rw [hs3, Update_other_slot s2 o3 i1 (by rw [← hi3]; exact hne13),
        hs2, Update_other_slot s1 o2 i1 (by rw [← hi2]; exact hne12)]
    have hkeep2 : s3.frObjectCB i2 = s2.frObjectCB i2 := by
      rw [hs3, Update_other_slot s2 o3 i2 (by rw [← hi3]; exact hne23)]
    intro f hf
    have hcases : f = i1 ∨ f = i2 ∨ f = i3 := by
      unfold gNumFrameResources at hf
      rw [hi2eq] at hne12 hi3eq ⊢
      rw [hi3eq]
      rw [hi3eq] at hne13 hne23
      omega
    rcases hcases with rfl | rfl | rfl
    · rw [hkeep1]; exact hwrite1
    · rw [hkeep2]; exact hwrite2
    · exact hwrite3

/-- Witness for C2 on a one-item scene: starting from slot 0 with the item
dirty for 3 frames, after three frame updates the buffer of slot 2 holds the
transposed world matrix. -/
theorem c2_witness :
    (Update (Update (Update
        ⟨0, fun _ => 0, fun _ _ => none,
          [{ World := fun _ _ => 0, ObjCBIndex := 0 }], 0⟩ 0).1 0).1 0).1.frObjectCB
      2 0 = some ⟨XMMatrixTranspose (fun _ _ => 0)⟩ := by
  have h := (c2_object_cb_propagation.2
    ⟨0, fun _ => 0, fun _ _ => none,
      [{ World := fun _ _ => 0, ObjCBIndex := 0 }], 0⟩ 0 0 0
    { World := fun _ _ => 0, ObjCBIndex := 0 }
    (by simp) (by simp) rfl).2 2 (by decide)
  exact h

/-- Whatever the generated mesh sizes, the rooftop submesh's
`StartIndexLocation` (set at line 714 to `roofVertexOffset`, a vertex offset)
misses the rooftop's actual position in the combined index buffer whenever
the box+cylinder+grid vertex total differs from the index total. -/
lemma roofSubmesh_start_mismatch (m : SceneMeshes)
    (h : m.box.numVertices + m.cylinder.numVertices + m.grid.numVertices
       ≠ m.box.numIndices + m.cylinder.numIndices + m.grid.numIndices) :
    (drawArgs m .rooftop).StartIndexLocation ≠ actualIndexStart m .rooftop := by
  show roofVertexOffset m
      ≠ m.box.numIndices + m.cylinder.numIndices + m.grid.numIndices
  unfold roofVertexOffset gridVertexOffset cylinderVertexOffset
  omega

/-- Whatever the generated mesh sizes, the diamond submesh's
`StartIndexLocation` (line 691 adds `diamond.Indices32.size()` to the pyramid
offset instead of `pyramid.Indices32.size()`) misses the diamond's actual
position in the combined index buffer whenever the pyramid's and diamond's
index counts differ. -/
lemma diamondSubmesh_start_mismatch (m : SceneMeshes)
    (h : m.pyramid.numIndices ≠ m.diamond.numIndices) :
    (drawArgs m .diamond).StartIndexLocation ≠ actualIndexStart m .diamond := by
  show diamondIndexOffset m
      ≠ m.box.numIndices + m.cylinder.numIndices + m.grid.numIndices +
          m.rooftop.numIndices + m.door.numIndices + m.cone.numIndices +
          m.wedge.numIndices + m.torus.numIndices + m.pyramid.numIndices
  unfold diamondIndexOffset pyramidIndexOffset torusIndexOffset
    wedgeIndexOffset coneIndexOffset doorIndexOffset boxIndexOffset
  omega

/-- C5: the submesh-range invariant fails on the built geometry.  At the
representative mesh sizes the rooftop and diamond submeshes do not start at
their shapes' actual positions in the combined index buffer (the rooftop's
start is a vertex offset; the diamond offsets accumulate the wrong shapes'
sizes), the diamond's base vertex is likewise misplaced, and the diamond1
submesh overruns both combined buffers.  The submeshes whose offsets are
computed correctly (box, cylinder, grid, door, cone, wedge, torus, pyramid)
do satisfy the invariant. -/
theorem c5_submesh_ranges_violated :
    ¬ (∀ s : ShapeId, submeshCorrect sampleMeshes s) ∧
    (drawArgs sampleMeshes .rooftop).StartIndexLocation
        ≠ actualIndexStart sampleMeshes .rooftop ∧
    (drawArgs sampleMeshes .diamond).StartIndexLocation
        ≠ actualIndexStart sampleMeshes .diamond ∧
    (drawArgs sampleMeshes .diamond).BaseVertexLocation
        ≠ actualVertexStart sampleMeshes .diamond ∧
    totalIndexCount sampleMeshes
        < (drawArgs sampleMeshes .diamond1).StartIndexLocation
            + (drawArgs sampleMeshes .diamond1).IndexCount ∧
    totalVertexCount sampleMeshes
        < (drawArgs sampleMeshes .diamond1).BaseVertexLocation
            + (meshOf sampleMeshes .diamond1).numVertices ∧
    submeshCorrect sampleMeshes .box ∧
    submeshCorrect sampleMeshes .cylinder ∧
    submeshCorrect sampleMeshes .grid ∧
    submeshCorrect sampleMeshes .door ∧
    submeshCorrect sampleMeshes .cone ∧
    submeshCorrect sampleMeshes .wedge ∧
    submeshCorrect sampleMeshes .torus ∧
    submeshCorrect sampleMeshes .pyramid := by
  refine ⟨fun hall => ?_, by decide, by decide, by decide, by decide,
    by decide, ?_, ?_, ?_, ?_, ?_, ?_, ?_, ?_⟩
  · exact absurd (hall .rooftop).2.2.1 (by decide)
  all_goals unfold submeshCorrect
  all_goals decide
